import Mathlib

/-
Verification of the doc-triager processing pipeline.

Shallow embedding of the modules checksum.py, database.py, extractor.py,
llm.py, mover.py, triage.py and pipeline.py.  Python machine-level details
are modelled as follows:

* Exceptions become `Except PyError`.  `FileNotFoundError` is a subclass of
  `OSError` in Python; `isOSError` reflects that.
* The SQLite store becomes an append-only `List TriageRecord`.  The query
  `SELECT * FROM triage_results WHERE source_path = ?` carries no ORDER BY;
  SQLite returns rows in rowid order (both for a table scan and for the
  equality scan over idx_source_path), so `fetchone` yields the
  FIRST-inserted matching record.  `get_by_source_path` is therefore
  `List.find?` over insertion order.
* The SHA-256 digest is modelled as an injective function on file content
  (the identity); the pipeline relies only on determinism and
  collision-freedom of the digest, never on its bit-level shape.
* Python floats carry only order comparisons and copies here; they are
  modelled as `Rat`.
* The wall-clock `processed_at` column is omitted: no pipeline logic reads it.
-/

namespace DocTriager

/-- File content, abstractly (the byte string of the file). -/
abbrev Content := String

/-- Python exception classes raised by the embedded code. -/
inductive PyError where
  | fileNotFound (msg : String)
  | timeoutExpired
  | runtimeError (msg : String)
  | valueError (msg : String)
  | typeError (msg : String)
  | osError (msg : String)
  | other (msg : String)
deriving DecidableEq

/-- Python class test `isinstance(e, OSError)`: `FileNotFoundError` is a
subclass of `OSError`; the other modelled classes are not. -/
def PyError.isOSError : PyError → Bool
  | .fileNotFound _ => true
  | .osError _ => true
  | _ => false

/-- Python `str(e)` on a caught exception (the message). -/
def PyError.toMessage : PyError → String
  | .fileNotFound m => m
  | .timeoutExpired => "TimeoutExpired"
  | .runtimeError m => m
  | .valueError m => m
  | .typeError m => m
  | .osError m => m
  | .other m => m

/-- SHA-256 hex digest of file content, modelled as an injective digest
(identity on content).  See the header comment. -/
def sha256_hexdigest (c : Content) : String := c

/-- The ASCII whitespace stripped by Python `str.strip()` (Python also
strips some rarer Unicode whitespace; no claim exercises it). -/
def isPyWhitespace (c : Char) : Bool :=
  c = ' ' ∨ c = '\t' ∨ c = '\n' ∨ c = '\r' ∨ c = '\x0b' ∨ c = '\x0c'

/-- Python `str.strip()`. -/
def pyStrip (s : String) : String :=
  String.mk (((s.data.dropWhile isPyWhitespace).reverse.dropWhile isPyWhitespace).reverse)

/-- Python `str.startswith(pre)`. -/
def pyStartsWith (s pre : String) : Bool :=
  pre.data.isPrefixOf s.data

/-- One row of the `triage_results` table (database.py).  `processed_at`
and `created_at` are omitted (never consulted by pipeline logic). -/
structure TriageRecord where
  source_path : String
  destination_path : Option String
  checksum : String
  file_size : Nat
  file_extension : String
  triage : String
  confidence : Rat
  reason : String
  topics : List String
  llm_provider : String
  llm_model : String
  extracted_text_length : Nat
  truncated : Bool
  error_message : Option String
deriving DecidableEq

/-- database.insert_result: plain INSERT, appends a row. -/
def insert_result (db : List TriageRecord) (record : TriageRecord) : List TriageRecord :=
  db ++ [record]

/-- database.get_by_source_path: `SELECT * ... WHERE source_path = ?` then
`fetchone()`; returns the first-inserted matching row (see header). -/
def get_by_source_path (db : List TriageRecord) (source_path : String) :
    Option TriageRecord :=
  db.find? (fun r => r.source_path == source_path)

/-- Spec-side definition, for comparison only.  The spec's dedup invariant
speaks of the most recent matching record for the path; this returns the
LAST-inserted match. -/
def get_latest_by_source_path (db : List TriageRecord) (source_path : String) :
    Option TriageRecord :=
  db.reverse.find? (fun r => r.source_path == source_path)

/-- checksum.compute_checksum: raises FileNotFoundError if the file is
absent, otherwise streams the content through SHA-256.  `fs` maps a path
to the content of the file at that path, if any. -/
def compute_checksum (fs : String → Option Content) (file_path : String) :
    Except PyError String :=
  match fs file_path with
  | none => .error (.fileNotFound ("ファイルが見つかりません: " ++ file_path))
  | some c => .ok (sha256_hexdigest c)

/-- checksum.is_processed: look up the record for the exact path; if none,
false; otherwise recompute the current checksum and compare. -/
def is_processed (db : List TriageRecord) (fs : String → Option Content)
    (file_path : String) : Except PyError Bool :=
  match get_by_source_path db file_path with
  | none => .ok false
  | some record =>
    match compute_checksum fs file_path with
    | .error e => .error e
    | .ok current => .ok (record.checksum == current)

/-! ## extractor.py: truncate_text -/

/-- The fixed truncation marker `_TRUNCATE_MARKER` of extractor.py. -/
def _TRUNCATE_MARKER : List Char := "\n\n[...truncated...]\n\n".data

/-- Python slice `xs[:stop]` with a possibly negative stop index. -/
def pySliceTo (xs : List Char) (stop : Int) : List Char :=
  if stop < 0 then xs.take (max 0 ((xs.length : Int) + stop)).toNat
  else xs.take stop.toNat

/-- Python slice `xs[start:]` with a possibly negative start index. -/
def pySliceFrom (xs : List Char) (start : Int) : List Char :=
  if start < 0 then xs.drop (max 0 ((xs.length : Int) + start)).toNat
  else xs.drop start.toNat

structure TruncateResult where
  text : List Char
  truncated : Bool
deriving DecidableEq

/-- extractor.truncate_text.  Head gets `available * 2 // 3` (Python floor
division, `Int.fdiv`), tail the remainder; the tail slice is the Python
slice `text[-tail_len:]`. -/
def truncate_text (text : List Char) (max_length : Int) : TruncateResult :=
  if (text.length : Int) ≤ max_length then
    { text := text, truncated := false }
  else
    let marker_len : Int := (_TRUNCATE_MARKER.length : Int)
    let available := max_length - marker_len
    let head_len := Int.fdiv (available * 2) 3
    let tail_len := available - head_len
    { text := pySliceTo text head_len ++ _TRUNCATE_MARKER ++ pySliceFrom text (-tail_len),
      truncated := true }

/-- Number of (possibly overlapping) occurrences of `pattern` in `xs`. -/
def countOccurrences (pattern xs : List Char) : Nat :=
  (List.range (xs.length + 1)).countP (fun i => pattern.isPrefixOf (xs.drop i))

/-! ## triage.py: results and the threshold gate -/

/-- triage.TriageResult with its dataclass defaults. -/
structure TriageResult where
  triage : String := "unknown"
  confidence : Rat := 0
  reason : String := ""
  topics : List String := []
  error : Option String := none
  raw_response : Option String := none
deriving DecidableEq

/-- triage.SummaryResult. -/
structure SummaryResult where
  summary : String := ""
  error : Option String := none
deriving DecidableEq

/-- triage.apply_threshold.  The Python function mutates `result` in place
and returns it; modelled as a value transformation (same observable
result). -/
def apply_threshold (result : TriageResult) (threshold : Rat) : TriageResult :=
  if result.error ≠ none then result
  else if result.confidence < threshold ∧ result.triage ≠ "unknown" then
    { result with triage := "unknown" }
  else result

/-! ## JSON payloads and triage._parse_response

`json.loads` (Python stdlib) is an external collaborator; it is passed in
as a function `loads : String → Except String Json` (error = the
JSONDecodeError message).  The claims never depend on the concrete
string-to-JSON parsing, only on the dataflow around it. -/

/-- A parsed JSON value. -/
inductive Json where
  | null
  | jbool (b : Bool)
  | num (q : Rat)
  | str (s : String)
  | arr (xs : List Json)
  | obj (fields : List (String × Json))

/-- Python `dict.get(key)` on a parsed JSON object.  (JSON objects with
duplicate keys are not used by any claim.) -/
def jsonGet (fields : List (String × Json)) (key : String) : Option Json :=
  (fields.find? (fun kv => kv.1 == key)).map (fun kv => kv.2)

/-- Python `float(v)` on a JSON value.  Raises TypeError / ValueError on
non-numeric values.  (Python also converts numeric strings; no claim
exercises a string-valued confidence, so that case is modelled as the
ValueError branch.) -/
def pyFloat : Json → Except PyError Rat
  | .num q => .ok q
  | .jbool b => .ok (if b then 1 else 0)
  | .str _ => .error (.valueError "could not convert string to float")
  | .null => .error (.typeError "float() argument must not be None")
  | .arr _ => .error (.typeError "float() argument must not be a list")
  | .obj _ => .error (.typeError "float() argument must not be a dict")

/-- triage._extract_json: strip the first fenced code block
(three-backtick fence, optional `json` tag) if one is present, else strip
the raw text.  The lazy regex of the source is equivalent, after the
final `.strip()`, to stripping the text between the first fence and the
next fence after it, with a literal `json` tag directly after the opening
fence dropped. -/
def _extract_json (text : String) : String :=
  let l := text.data
  let fence := "```".data
  match (List.range l.length).find? (fun i => fence.isPrefixOf (l.drop i)) with
  | none => pyStrip text
  | some i =>
    let after := l.drop (i + 3)
    match (List.range after.length).find? (fun j => fence.isPrefixOf (after.drop j)) with
    | none => pyStrip text
    | some j =>
      let inner := after.take j
      let inner := if ("json".data).isPrefixOf inner then inner.drop 4 else inner
      pyStrip (String.mk inner)

/-- Extract `data.get("classification", "unknown")` as the triage string.
Non-string classification payloads are outside this model (Python would
store the raw non-string value in the record unchecked); every claim
concerns string payloads. -/
def classificationField (fields : List (String × Json)) : String :=
  match jsonGet fields "classification" with
  | some (.str s) => s
  | _ => "unknown"

/-- `data.get("reason", "")`; non-string payloads unmodelled as above. -/
def reasonField (fields : List (String × Json)) : String :=
  match jsonGet fields "reason" with
  | some (.str s) => s
  | _ => ""

/-- `data.get("topics", [])`; only lists of strings are modelled. -/
def topicsField (fields : List (String × Json)) : List String :=
  match jsonGet fields "topics" with
  | some (.arr xs) => xs.filterMap (fun j => match j with | .str s => some s | _ => none)
  | _ => []

/-- triage._parse_response.  Only JSONDecodeError is caught; the
`float(...)` conversion and the `data.get` attribute access on a non-dict
payload raise out of the function (hence the `Except`). -/
def _parse_response (loads : String → Except String Json) (raw : String) :
    Except PyError TriageResult :=
  let json_str := _extract_json raw
  match loads json_str with
  | .error e =>
    .ok { error := some ("JSONパース失敗: " ++ e), raw_response := some raw }
  | .ok (.obj fields) =>
    match pyFloat ((jsonGet fields "confidence").getD (.num 0)) with
    | .error e => .error e
    | .ok conf =>
      .ok { triage := classificationField fields
            confidence := conf
            reason := reasonField fields
            topics := topicsField fields }
  | .ok _ =>
    -- json.loads returned a non-dict payload; `data.get` raises AttributeError
    .error (.other "AttributeError: object has no attribute get")

/-! ## Prompt templates (prompt/*.txt)

The template text assets are not present under src/ (only the .py sources
are).  Per the spec they are opaque resources consumed by pure string
substitution; each rendered template is modelled as an injective encoding
of its substituted fields. -/

/-- Modelled from the spec: the missing `classify_file.txt` template
(file-reference prompt); rendering substitutes filename and extension. -/
def render_classify_file (filename file_extension : String) : String :=
  "classify_file<" ++ filename ++ "><" ++ file_extension ++ ">"

/-- Modelled from the spec: the missing `classify.txt` template
(text-embedded prompt); rendering substitutes filename, extension,
truncation flag and the extracted text. -/
def render_classify (filename file_extension : String) (truncated : Bool)
    (text : String) : String :=
  "classify<" ++ filename ++ "><" ++ file_extension ++ "><" ++
    (if truncated then "True" else "False") ++ "><" ++ text ++ ">"

/-- Modelled from the spec: the missing `summary.txt` template; rendering
substitutes filename and the text to summarize. -/
def render_summary (filename text : String) : String :=
  "summary<" ++ filename ++ "><" ++ text ++ ">"

/-- triage.build_classify_prompt: template family selected by whether a
direct file reference is supplied.  The file-reference template is
rendered with filename and extension only (the path selects the template;
it is not a substitution argument in the source). -/
def build_classify_prompt (filename file_extension : String) (text : String)
    (truncated : Bool) (file_path : Option String) : String :=
  match file_path with
  | some _ => render_classify_file filename file_extension
  | none => render_classify filename file_extension truncated text

/-! ## llm.py: backends, and triage._call_llm -/

/-- Outcome of `subprocess.run` on a command, as decided by the operating
system environment. -/
inductive SubOutcome where
  | notFound
  | timedOut
  | completed (returncode : Int) (stdout stderr : String)

/-- The external world consumed by the pipeline: the subprocess runner,
the hosted API, `json.loads`, and the MarkItDown converter. -/
structure Env where
  run : List String → String → Nat → SubOutcome
  api : String → String → Nat → Option String → Except String String
  loads : String → Except String Json
  convert : String → Except String String

/-- An observable invocation of an LLM backend: a subprocess execution
attempt or a hosted-API request. -/
inductive CallEvent where
  | subproc (cmd : List String) (prompt : String)
  | api (prompt : String)
deriving DecidableEq

/-- llm._run_cli: execute the command with the prompt on stdin; non-zero
exit → RuntimeError, missing binary → FileNotFoundError, timeout →
TimeoutExpired.  The event records that the backend was invoked. -/
def _run_cli (env : Env) (cmd : List String) (prompt : String) (timeout : Nat) :
    Except PyError String × List CallEvent :=
  let events := [CallEvent.subproc cmd prompt]
  match env.run cmd prompt timeout with
  | .notFound => (.error (.fileNotFound "コマンドが見つかりません"), events)
  | .timedOut => (.error .timeoutExpired, events)
  | .completed rc stdout stderr =>
    if rc ≠ 0 then
      (.error (.runtimeError ("CLI実行失敗 (code=" ++ toString rc ++ "): " ++ stderr)), events)
    else
      (.ok stdout, events)

/-- llm.build_claude_cmd (`if model:` — empty string is falsy). -/
def build_claude_cmd (model : String) : List String :=
  ["claude", "-p", "--output-format", "text"] ++
    (if model = "" then [] else ["--model", model])

/-- llm.build_codex_cmd. -/
def build_codex_cmd (model : String) : List String :=
  ["codex", "exec", "-"] ++ (if model = "" then [] else ["-m", model])

/-- llm.call_claude.  Keyword-only parameters: prompt, model, timeout —
there is no file_path parameter. -/
def call_claude (env : Env) (prompt model : String) (timeout : Nat) :
    Except PyError String × List CallEvent :=
  _run_cli env (build_claude_cmd model) prompt timeout

/-- llm.call_codex. -/
def call_codex (env : Env) (prompt model : String) (timeout : Nat) :
    Except PyError String × List CallEvent :=
  _run_cli env (build_codex_cmd model) prompt timeout

/-- llm.call_api: one user-role message against the hosted endpoint; any
transport error propagates unchanged. -/
def call_api (env : Env) (prompt model : String) (timeout : Nat)
    (api_base : Option String) : Except PyError String × List CallEvent :=
  (match env.api prompt model timeout api_base with
   | .error e => .error (.other e)
   | .ok raw => .ok raw,
   [CallEvent.api prompt])

/-- triage._call_llm.  For mode "cli" the provider is looked up in
the callers dict (unsupported provider → ValueError); the kwargs dict is
built with prompt/model/timeout, plus file_path when provider is "claude"
and a file path is present.  `call_claude` accepts only (prompt, model,
timeout), so Python keyword binding then fails with TypeError before the
function body runs — no subprocess is started in that case. -/
def _call_llm (env : Env) (prompt model : String) (timeout : Nat)
    (api_base : Option String) (mode provider : String)
    (file_path : Option String) : Except PyError String × List CallEvent :=
  if mode = "cli" then
    if provider = "claude" then
      if file_path ≠ none then
        (.error (.typeError
          "call_claude() got an unexpected keyword argument file_path"), [])
      else call_claude env prompt model timeout
    else if provider = "codex" then
      call_codex env prompt model timeout
    else
      (.error (.valueError ("未対応のCLIプロバイダ: " ++ provider)), [])
  else
    call_api env prompt model timeout api_base

/-- triage.summarize_text: one backend call; any exception or an
empty/whitespace-only response falls back to the original text with a
non-null error. -/
def summarize_text (env : Env) (text filename model : String) (timeout : Nat)
    (api_base : Option String) (mode provider : String) :
    SummaryResult × List CallEvent :=
  let prompt := render_summary filename text
  match _call_llm env prompt model timeout api_base mode provider none with
  | (.error e, events) => ({ summary := text, error := some e.toMessage }, events)
  | (.ok raw, events) =>
    if pyStrip raw = "" then
      ({ summary := text, error := some "要約レスポンスが空です" }, events)
    else
      ({ summary := pyStrip raw }, events)

/-- triage.classify_document: build the prompt, dispatch, map the five
except-branches to errored results, parse on success.  The final
`_parse_response` call sits outside the try block in the source, so its
exceptions propagate (hence `Except` on the result). -/
def classify_document (env : Env) (text filename file_extension : String)
    (truncated : Bool) (model : String) (timeout : Nat)
    (api_base : Option String) (mode provider : String)
    (file_path : Option String) :
    Except PyError TriageResult × List CallEvent :=
  let prompt := build_classify_prompt filename file_extension text truncated file_path
  match _call_llm env prompt model timeout api_base mode provider file_path with
  | (.error (.valueError e), events) => (.ok { error := some e }, events)
  | (.error (.fileNotFound _), events) =>
    (.ok { error := some ("CLIコマンド " ++ provider ++ " が見つかりません") }, events)
  | (.error .timeoutExpired, events) =>
    (.ok { error := some ("CLI実行がタイムアウトしました (" ++ toString timeout ++ "秒)") }, events)
  | (.error (.runtimeError e), events) => (.ok { error := some e }, events)
  | (.error e, events) => (.ok { error := some e.toMessage }, events)
  | (.ok raw, events) => (_parse_response env.loads raw, events)

/-! ## mover.py

Destination paths are modelled structurally: directory components, stem,
suffix, and the numeric collision counter (`None` for the plain name).
The rendered string of `{dir}/{stem}_{counter}{suffix}` is injective in
the counter for a fixed stem and suffix, which the structural model
captures directly. -/

/-- A (logical) destination file name. -/
structure DestName where
  dir : List String
  stem : String
  suffix : String
  counter : Option Nat
deriving DecidableEq

/-- The candidate `parent / f"{stem}_{counter}{suffix}"` of
mover._resolve_destination. -/
def mkCandidate (dest : DestName) (counter : Nat) : DestName :=
  { dest with counter := some counter }

/-- The `while True` loop body of mover._resolve_destination: try
counters `counter, counter+1, ...` until a candidate does not exist.
The source loop is unbounded; `occupied.length + 1` steps always suffice
(lemma `find_free_within_fuel` below), so the fuel-exhausted branch is
unreachable. -/
def _find_free (occupied : List DestName) (dest : DestName) (counter : Nat) :
    Nat → DestName
  | 0 => mkCandidate dest counter
  | fuel + 1 =>
    let candidate := mkCandidate dest counter
    if occupied.contains candidate then _find_free occupied dest (counter + 1) fuel
    else candidate

/-- mover._resolve_destination: return `dest` unchanged if free, else the
first free numbered candidate starting from `_1`. -/
def _resolve_destination (occupied : List DestName) (dest : DestName) : DestName :=
  if occupied.contains dest then _find_free occupied dest 1 (occupied.length + 1)
  else dest

/-- Render a destination name to the path string stored in the record. -/
def renderDest (d : DestName) : String :=
  String.intercalate "/" d.dir ++ "/" ++ d.stem ++
    (match d.counter with | some c => "_" ++ toString c | none => "") ++ d.suffix

/-! ## Paths and the pipeline state -/

/-- A source file, by its path components relative to the source root. -/
structure SrcFile where
  rel : List String
deriving DecidableEq

/-- `Path.name`: the final component. -/
def SrcFile.name (f : SrcFile) : String := f.rel.getLastD ""

/-- The absolute path `source_dir / rel`, the DB lookup key. -/
def fullPath (source_dir : String) (f : SrcFile) : String :=
  source_dir ++ "/" ++ String.intercalate "/" f.rel

/-- `Path.suffix`: the final extension including the dot, empty for names
without a dot and for dot-files.  (Exotic cases like trailing dots are
not exercised by any claim.) -/
def pySuffix (name : String) : String :=
  let l := name.data
  let dots := l.count (Char.ofNat 46)
  if dots = 0 then ""
  else if pyStartsWith name "." ∧ dots = 1 then ""
  else String.mk (Char.ofNat 46 :: (l.reverse.takeWhile (fun c => !(c = Char.ofNat 46))).reverse)

/-- `Path.stem`: the final component without its suffix. -/
def pyStem (name : String) : String :=
  String.mk (name.data.take (name.data.length - (pySuffix name).data.length))

/-- The mutable world threaded through the pipeline: source-tree files by
absolute path, occupied destination names, and the database rows. -/
structure World where
  fs : String → Option Content
  dest : List DestName
  db : List TriageRecord

/-- mover.move_file: FileNotFoundError if the source vanished, else
compute `output_root/triage/<relative path>`, resolve collisions, create
directories and move.  Returns the updated world and the destination. -/
def move_file (w : World) (source_dir output_dir : String) (f : SrcFile)
    (triage : String) : Except PyError (World × DestName) :=
  let path := fullPath source_dir f
  match w.fs path with
  | none => .error (.fileNotFound ("ファイルが見つかりません: " ++ path))
  | some _ =>
    let name := f.name
    let dest0 : DestName :=
      { dir := [output_dir, triage] ++ f.rel.dropLast
        stem := pyStem name
        suffix := pySuffix name
        counter := none }
    let dest := _resolve_destination w.dest dest0
    .ok ({ w with
            fs := fun p => if p = path then none else w.fs p
            dest := w.dest ++ [dest] },
         dest)

/-! ## extractor.extract_text and the configuration -/

/-- extractor.ExtractionResult. -/
structure ExtractionResult where
  text : Option String
  insufficient : Bool := false
  error : Option String := none
deriving DecidableEq

/-- extractor.extract_text: delegate to the converter (any exception is
captured as the error outcome); then the sufficiency rule
`not text or len(text.strip()) < min_text_length`.  The debug-mirror
write is a pure side effect consulted by nothing and is omitted. -/
def extract_text (env : Env) (file_path : String) (min_text_length : Nat) :
    ExtractionResult :=
  match env.convert file_path with
  | .error e => { text := none, error := some e }
  | .ok text =>
    if text = "" ∨ (pyStrip text).length < min_text_length then
      { text := some text, insufficient := true }
    else
      { text := some text }

/-- config.RateLimitConfig (only the timeout is consumed by the pipeline). -/
structure RateLimitConfig where
  request_timeout_sec : Nat := 120
deriving DecidableEq

/-- config.LlmConfig. -/
structure LlmConfig where
  mode : String := "api"
  provider : String := "openai"
  model : String := "gpt-4o"
  base_url : Option String := none
  rate_limit : RateLimitConfig := {}
deriving DecidableEq

/-- config.TriageConfig. -/
structure TriageConfig where
  confidence_threshold : Rat := mkRat 7 10
  max_input_tokens : Nat := 8000
deriving DecidableEq

/-- config.TextExtractionConfig (debug_dir omitted, see extract_text). -/
structure TextExtractionConfig where
  min_text_length : Nat := 100
  llm_summary_enabled : Bool := false
deriving DecidableEq

/-- config.InputConfig / OutputConfig, reduced to the directories the
pipeline reads.  The database path is implicit: the store itself is the
`db` component of the `World`. -/
structure Config where
  input_directory : String := ""
  output_directory : String := ""
  triage : TriageConfig := {}
  llm : LlmConfig := {}
  text_extraction : TextExtractionConfig := {}
deriving DecidableEq

/-- pipeline._is_file_direct_mode. -/
def _is_file_direct_mode (cfg : Config) : Bool :=
  cfg.llm.mode == "cli" && cfg.llm.provider == "claude"

/-! ## pipeline.process_file -/

/-- The per-file result dict returned by pipeline.process_file.  Keys
absent from a branch's dict (looked up with `.get` by the caller) are
modelled by the defaults. -/
structure FileOutcome where
  triage : Option String := none
  confidence : Rat := 0
  reason : String := ""
  topics : List String := []
  skipped : Bool := false
  error : Option String := none
  destination_path : Option String := none
deriving DecidableEq

/-- Steps [3.5]–[3.7] of pipeline.process_file, shared by the file-direct
and the extraction branches: threshold gate, move (unless dry-run, with
OSError caught and logged), and the record write. -/
def _finish (w : World) (cfg : Config) (dry_run : Bool) (f : SrcFile)
    (checksum : String) (file_size : Nat) (cls0 : TriageResult)
    (extracted_text_length : Nat) (truncated : Bool) :
    Except PyError (World × FileOutcome) :=
  let cls := apply_threshold cls0 cfg.triage.confidence_threshold
  let moveRes : Except PyError (World × Option String) :=
    if dry_run then .ok (w, none)
    else
      match move_file w cfg.input_directory cfg.output_directory f cls.triage with
      | .ok (w2, d) => .ok (w2, some (renderDest d))
      | .error e => if e.isOSError then .ok (w, none) else .error e
  match moveRes with
  | .error e => .error e
  | .ok (w2, destination_path) =>
    let record : TriageRecord :=
      { source_path := fullPath cfg.input_directory f
        destination_path := destination_path
        checksum := checksum
        file_size := file_size
        file_extension := pySuffix f.name
        triage := cls.triage
        confidence := cls.confidence
        reason := cls.reason
        topics := cls.topics
        llm_provider := cfg.llm.provider
        llm_model := cfg.llm.model
        extracted_text_length := extracted_text_length
        truncated := truncated
        error_message := cls.error }
    .ok ({ w2 with db := insert_result w2.db record },
         { triage := some cls.triage
           confidence := cls.confidence
           reason := cls.reason
           topics := cls.topics
           skipped := false
           error := cls.error
           destination_path := destination_path })

/-- Step [3.4.1] of pipeline.process_file: the optional summarization of
the truncated text (on summary failure the fallback summary is the input
text, so classification proceeds either way). -/
def _summary_step (env : Env) (cfg : Config) (f : SrcFile) (classify_text : String)
    (model : String) (timeout : Nat) (base_url : Option String) :
    String × List CallEvent :=
  if cfg.text_extraction.llm_summary_enabled then
    let sr := summarize_text env classify_text f.name model timeout base_url
      cfg.llm.mode cfg.llm.provider
    (sr.1.summary, sr.2)
  else (classify_text, [])

/-- pipeline.process_file.  Uncaught exceptions (FileNotFoundError from
fingerprinting, non-OSError failures later) surface as `.error`.  The
third component lists the LLM backend invocations performed. -/
def process_file (env : Env) (w : World) (cfg : Config) (dry_run : Bool)
    (f : SrcFile) : Except PyError (World × FileOutcome × List CallEvent) :=
  let source_dir := cfg.input_directory
  let path := fullPath source_dir f
  match compute_checksum w.fs path with
  | .error e => .error e
  | .ok checksum =>
  let file_size := ((w.fs path).getD "").length
  match is_processed w.db w.fs path with
  | .error e => .error e
  | .ok true => .ok (w, { triage := none, skipped := true }, [])
  | .ok false =>
  let mode := cfg.llm.mode
  let timeout := cfg.llm.rate_limit.request_timeout_sec
  let base_url := cfg.llm.base_url
  let model :=
    if mode = "api" then cfg.llm.provider ++ "/" ++ cfg.llm.model
    else cfg.llm.model
  if _is_file_direct_mode cfg then
    -- [3.3-alt] file-direct mode: skip extraction/truncation/summary
    match classify_document env "" f.name (pySuffix f.name) false model timeout
        base_url mode cfg.llm.provider (some path) with
    | (.error e, _) => .error e
    | (.ok cls0, events) =>
      match _finish w cfg dry_run f checksum file_size cls0 0 false with
      | .error e => .error e
      | .ok (w2, outcome) => .ok (w2, outcome, events)
  else
    let extraction := extract_text env path cfg.text_extraction.min_text_length
    match extraction.error with
    | some err =>
      let record : TriageRecord :=
        { source_path := path
          destination_path := none
          checksum := checksum
          file_size := file_size
          file_extension := pySuffix f.name
          triage := "unknown"
          confidence := 0
          reason := "テキスト抽出失敗"
          topics := []
          llm_provider := cfg.llm.provider
          llm_model := cfg.llm.model
          extracted_text_length := 0
          truncated := false
          error_message := some err }
      .ok ({ w with db := insert_result w.db record },
           { triage := some "unknown", confidence := 0, skipped := false
             error := some err, destination_path := none },
           [])
    | none =>
    if extraction.insufficient then
      let text_len := (pyStrip (extraction.text.getD "")).length
      let record : TriageRecord :=
        { source_path := path
          destination_path := none
          checksum := checksum
          file_size := file_size
          file_extension := pySuffix f.name
          triage := "unknown"
          confidence := 0
          reason := "テキスト抽出不足"
          topics := []
          llm_provider := cfg.llm.provider
          llm_model := cfg.llm.model
          extracted_text_length := text_len
          truncated := false
          error_message := none }
      .ok ({ w with db := insert_result w.db record },
           { triage := some "unknown", confidence := 0, skipped := false
             error := none, destination_path := none },
           [])
    else
      let text := extraction.text.getD ""
      let tr := truncate_text text.data (cfg.triage.max_input_tokens : Int)
      let summaryStep := _summary_step env cfg f (String.mk tr.text) model timeout base_url
      match classify_document env summaryStep.1 f.name (pySuffix f.name)
          tr.truncated model timeout base_url mode cfg.llm.provider none with
      | (.error e, _) => .error e
      | (.ok cls0, events) =>
        match _finish w cfg dry_run f checksum file_size cls0 text.length tr.truncated with
        | .error e => .error e
        | .ok (w2, outcome) => .ok (w2, outcome, summaryStep.2 ++ events)

/-! ## pipeline.process_files -/

/-- The aggregate run summary dict. -/
structure Summary where
  total : Nat := 0
  evergreen : Nat := 0
  temporal : Nat := 0
  unknown : Nat := 0
  error : Nat := 0
  skipped : Nat := 0
deriving DecidableEq

/-- `summary[cls] += 1` guarded by `if cls in summary`: any of the six
dict keys counts; other strings are dropped. -/
def bumpKey (s : Summary) (key : String) : Summary :=
  if key = "total" then { s with total := s.total + 1 }
  else if key = "evergreen" then { s with evergreen := s.evergreen + 1 }
  else if key = "temporal" then { s with temporal := s.temporal + 1 }
  else if key = "unknown" then { s with unknown := s.unknown + 1 }
  else if key = "error" then { s with error := s.error + 1 }
  else if key = "skipped" then { s with skipped := s.skipped + 1 }
  else s

/-- The per-file summary update of pipeline.process_files.  Python
truthiness of `result.get("error")`: a present but empty error string is
falsy. -/
def updateSummary (s : Summary) (outcome : FileOutcome) : Summary :=
  if outcome.skipped then { s with skipped := s.skipped + 1 }
  else if outcome.error ≠ none ∧ outcome.error ≠ some "" then
    { s with error := s.error + 1 }
  else
    match outcome.triage with
    | some cls => bumpKey s cls
    | none => s

/-- The `for` loop of pipeline.process_files.  The body contains no
try/except: an exception from process_file propagates and aborts the
batch. -/
def process_files_go (env : Env) (cfg : Config) (dry_run : Bool) :
    World → Summary → List SrcFile → Except PyError (World × Summary)
  | w, s, [] => .ok (w, s)
  | w, s, f :: rest =>
    match process_file env w cfg dry_run f with
    | .error e => .error e
    | .ok (w2, outcome, _) => process_files_go env cfg dry_run w2 (updateSummary s outcome) rest

/-- pipeline.process_files: initialize the counters with the batch size
and fold the loop. -/
def process_files (env : Env) (w : World) (cfg : Config) (dry_run : Bool)
    (files : List SrcFile) : Except PyError (World × Summary) :=
  process_files_go env cfg dry_run w { total := files.length } files

/-! # Theorems -/

/-! ## Shared helper lemmas -/

theorem apply_threshold_of_error (r : TriageResult) (t : Rat)
    (h : r.error ≠ none) : apply_threshold r t = r := by
  simp [apply_threshold, h]

theorem apply_threshold_confidence (r : TriageResult) (t : Rat) :
    (apply_threshold r t).confidence = r.confidence := by
  unfold apply_threshold
  split_ifs <;> rfl

theorem apply_threshold_error (r : TriageResult) (t : Rat) :
    (apply_threshold r t).error = r.error := by
  unfold apply_threshold
  split_ifs <;> rfl

theorem marker_length : _TRUNCATE_MARKER.length = 21 := by decide

theorem truncate_text_of_gt (text : List Char) (max_length : Int)
    (h : ¬ ((text.length : Int) ≤ max_length)) :
    truncate_text text max_length =
      { text := pySliceTo text (Int.fdiv ((max_length - 21) * 2) 3) ++ _TRUNCATE_MARKER
          ++ pySliceFrom text (-((max_length - 21) - Int.fdiv ((max_length - 21) * 2) 3)),
        truncated := true } := by
  rw [truncate_text, if_neg h]
  simp only [marker_length, Nat.cast_ofNat]

/-! ## C7: the threshold gate -/

/-- C7: apply_threshold is a no-op when error is non-null or the category
is already "unknown"; otherwise confidence < threshold downgrades the
category to "unknown" with the confidence value preserved, and
confidence ≥ threshold leaves the result unchanged. -/
theorem C7_threshold_gate (r : TriageResult) (t : Rat) :
    (apply_threshold r t).confidence = r.confidence
    ∧ (r.error ≠ none → apply_threshold r t = r)
    ∧ (r.triage = "unknown" → apply_threshold r t = r)
    ∧ (r.error = none → r.confidence < t → r.triage ≠ "unknown" →
        apply_threshold r t = { r with triage := "unknown" })
    ∧ (r.error = none → t ≤ r.confidence → apply_threshold r t = r) := by
  refine ⟨apply_threshold_confidence r t, apply_threshold_of_error r t, ?_, ?_, ?_⟩
  · intro hu
    unfold apply_threshold
    split_ifs with h1 h2
    · rfl
    · exact absurd hu h2.2
    · rfl
  · intro he hc hu
    simp [apply_threshold, he, hc, hu]
  · intro he hc
    unfold apply_threshold
    split_ifs with h1 h2
    · rfl
    · exact absurd h2.1 (not_lt.mpr hc)
    · rfl

theorem C7_threshold_gate_witness :
    apply_threshold { triage := "evergreen", confidence := 1/2 } (7/10)
      = { triage := "unknown", confidence := 1/2 } := by
  have h := (C7_threshold_gate { triage := "evergreen", confidence := 1/2 } (7/10)).2.2.2.1
    rfl (by norm_num) (by decide)
  simpa using h

/-! ## C10: idempotence of the threshold gate -/

/-- C10: apply_threshold is idempotent: gating an already-gated result
again with the same threshold changes nothing. -/
theorem C10_apply_threshold_idempotent (r : TriageResult) (t : Rat) :
    apply_threshold (apply_threshold r t) t = apply_threshold r t := by
  unfold apply_threshold
  split_ifs <;> simp_all

/-! ## C5: the truncation bound -/

/-- The concrete input refuting C5 as stated: the marker followed by one
character, with `max_length` equal to the marker length.  Then
`available = 0`, both slice bounds are `0`, and the Python tail slice
`text[-0:]` is the whole text, so the output is marker ++ text: longer
than `max_length` and containing the marker more than once. -/
def c5text : List Char := _TRUNCATE_MARKER ++ ['a']

/-- C5 counterexample: for `text = marker ++ "a"` and `max_length = 21`
(so `len(text) > max_length`), the output is longer than `max_length`
and does not contain the marker exactly once. -/
theorem C5_counterexample :
    (c5text.length : Int) > 21
    ∧ ¬ (((truncate_text c5text 21).text.length : Int) ≤ 21)
    ∧ countOccurrences _TRUNCATE_MARKER (truncate_text c5text 21).text ≠ 1 := by
  refine ⟨by decide, by decide, by decide⟩

/-- C5 (amended): for `len(text) ≤ max_length` the text is returned
unchanged and untruncated; for `len(text) > max_length` and
`max_length > len(marker)`, the output is a prefix of the text, then the
marker, then a suffix of the text, with head length
`(max_length - 21) * 2 // 3` (floor) and the remainder as tail length,
and its total length is at most `max_length` (in fact exactly). -/
theorem C5_truncation_bound (text : List Char) (max_length : Int) :
    ((text.length : Int) ≤ max_length →
      truncate_text text max_length = { text := text, truncated := false })
    ∧ ((text.length : Int) > max_length → (_TRUNCATE_MARKER.length : Int) < max_length →
      ∃ head_len tail_len : Nat,
        (head_len : Int) = Int.fdiv ((max_length - 21) * 2) 3
        ∧ (tail_len : Int) = (max_length - 21) - Int.fdiv ((max_length - 21) * 2) 3
        ∧ truncate_text text max_length =
            { text := text.take head_len ++ _TRUNCATE_MARKER
                        ++ text.drop (text.length - tail_len),
              truncated := true }
        ∧ (((truncate_text text max_length).text.length : Int) ≤ max_length)) := by
  constructor
  · intro hle
    simp [truncate_text, hle]
  · intro hgt hmax
    rw [marker_length] at hmax
    -- available = max_length - 21 is a positive natural number A
    obtain ⟨A, hA⟩ : ∃ A : Nat, max_length - 21 = (A : Int) :=
      ⟨(max_length - 21).toNat, (Int.toNat_of_nonneg (by omega)).symm⟩
    have hApos : 0 < A := by omega
    have hlen : (A : Int) + 22 ≤ (text.length : Int) := by omega
    have hn : A + 22 ≤ text.length := by exact_mod_cast hlen
    -- the head and tail budgets, as naturals
    have hfdiv : Int.fdiv ((max_length - 21) * 2) 3 = ((A * 2 / 3 : Nat) : Int) := by
      rw [hA]
      rw [show ((A : Int) * 2) = ((A * 2 : Nat) : Int) by push_cast; ring]
      exact (Int.ofNat_fdiv (A * 2) 3).symm
    set h : Nat := A * 2 / 3 with hh
    have hhle : h ≤ A := by
      calc A * 2 / 3 ≤ A * 3 / 3 := Nat.div_le_div_right (by omega)
        _ = A := Nat.mul_div_cancel A (by omega)
    have hhlt : h < A := by
      rw [hh, Nat.div_lt_iff_lt_mul (by omega)]
      omega
    set t : Nat := A - h with ht
    have htpos : 0 < t := by omega
    have htr := truncate_text_of_gt text max_length (not_le.mpr hgt)
    have he1 : pySliceTo text (Int.fdiv ((max_length - 21) * 2) 3) = text.take h := by
      rw [hfdiv, pySliceTo, if_neg (by omega)]
      simp
    have he2 : pySliceFrom text (-((max_length - 21) - Int.fdiv ((max_length - 21) * 2) 3))
        = text.drop (text.length - t) := by
      rw [hfdiv, hA]
      have hneg : -((A : Int) - ((A * 2 / 3 : Nat) : Int)) = -(t : Int) := by
        rw [ht]; push_cast; omega
      rw [hneg, pySliceFrom, if_pos (by omega)]
      congr 1
      have hc : (text.length : Int) + -(t : Int) = ((text.length - t : Nat) : Int) := by
        omega
      rw [hc, max_eq_right (by omega)]
      simp
    refine ⟨h, t, ?_, ?_, ?_, ?_⟩
    · rw [hfdiv]
    · rw [hfdiv, hA]; omega
    · rw [htr, he1, he2]
    · rw [htr, he1, he2]
      simp only [List.length_append, marker_length, List.length_take, List.length_drop]
      have hmin : min h text.length = h := min_eq_left (by omega)
      rw [hmin]
      push_cast
      omega

theorem C5_truncation_bound_witness :
    ((((List.replicate 30 'x').length : Int) ≤ 25 →
      truncate_text (List.replicate 30 'x') 25
        = { text := List.replicate 30 'x', truncated := false }))
    ∧ (∃ head_len tail_len : Nat,
        (head_len : Int) = Int.fdiv (((25 : Int) - 21) * 2) 3
        ∧ (tail_len : Int) = ((25 : Int) - 21) - Int.fdiv (((25 : Int) - 21) * 2) 3
        ∧ truncate_text (List.replicate 30 'x') 25 =
            { text := (List.replicate 30 'x').take head_len ++ _TRUNCATE_MARKER
                        ++ (List.replicate 30 'x').drop ((List.replicate 30 'x').length - tail_len),
              truncated := true }
        ∧ ((((truncate_text (List.replicate 30 'x') 25).text.length : Int) ≤ 25))) :=
  ⟨(C5_truncation_bound (List.replicate 30 'x') 25).1,
   (C5_truncation_bound (List.replicate 30 'x') 25).2 (by decide) (by decide)⟩

/-! ## C6: collision-safe move naming -/

theorem mkCandidate_inj (d : DestName) {a b : Nat}
    (h : mkCandidate d a = mkCandidate d b) : a = b := by
  have := congrArg DestName.counter h
  simpa [mkCandidate] using this

theorem mem_of_containsb {l : List DestName} {x : DestName}
    (h : l.contains x = true) : x ∈ l :=
  List.elem_iff.mp h

theorem containsb_of_mem {l : List DestName} {x : DestName}
    (h : x ∈ l) : l.contains x = true :=
  List.elem_iff.mpr h

theorem not_containsb_true {l : List DestName} {x : DestName}
    (h : l.contains x = false) : ¬ (l.contains x = true) := by
  rw [h]
  simp

theorem find_free_succ (occupied : List DestName) (d : DestName)
    (counter n : Nat) :
    _find_free occupied d counter (n + 1) =
      if occupied.contains (mkCandidate d counter) = true
      then _find_free occupied d (counter + 1) n
      else mkCandidate d counter := rfl

/-- Pigeonhole: among `occupied.length + 1` consecutive candidates at
least one is free, so the source's unbounded while-loop terminates within
the fuel `_resolve_destination` supplies. -/
theorem find_free_within_fuel (occupied : List DestName) (d : DestName)
    (counter : Nat) :
    ∃ k, k < occupied.length + 1
      ∧ occupied.contains (mkCandidate d (counter + k)) = false := by
  by_contra hcon
  push_neg at hcon
  have hmem : ∀ k, k < occupied.length + 1 → mkCandidate d (counter + k) ∈ occupied := by
    intro k hk
    cases hc : occupied.contains (mkCandidate d (counter + k)) with
    | false => exact absurd hc (hcon k hk)
    | true => exact mem_of_containsb hc
  have hnodup : ((List.range (occupied.length + 1)).map
      (fun k => mkCandidate d (counter + k))).Nodup := by
    refine List.Nodup.map ?_ (List.nodup_range _)
    intro a b hab
    have := mkCandidate_inj d hab
    omega
  have hsub : ((List.range (occupied.length + 1)).map
      (fun k => mkCandidate d (counter + k))) ⊆ occupied := by
    intro x hx
    obtain ⟨k, hk, rfl⟩ := List.mem_map.mp hx
    exact hmem k (List.mem_range.mp hk)
  have hle := (List.subperm_of_subset hnodup hsub).length_le
  simp only [List.length_map, List.length_range] at hle
  omega

/-- Correctness of the while-loop: given that some candidate within the
fuel is free, `_find_free` returns the first free candidate at or after
`counter`. -/
theorem find_free_spec (occupied : List DestName) (d : DestName) :
    ∀ fuel counter,
      (∃ k, k < fuel ∧ occupied.contains (mkCandidate d (counter + k)) = false) →
      ∃ k, _find_free occupied d counter fuel = mkCandidate d (counter + k)
        ∧ occupied.contains (mkCandidate d (counter + k)) = false
        ∧ ∀ j, j < k → occupied.contains (mkCandidate d (counter + j)) = true := by
  intro fuel
  induction fuel with
  | zero =>
    rintro counter ⟨k, hk, _⟩
    omega
  | succ n ih =>
    rintro counter ⟨k, hk, hfree⟩
    cases hocc : occupied.contains (mkCandidate d counter) with
    | false =>
      refine ⟨0, ?_, by simpa using hocc, by omega⟩
      rw [find_free_succ, if_neg (not_containsb_true hocc)]
      simp
    | true =>
      have hex : ∃ k, k < n ∧ occupied.contains (mkCandidate d (counter + 1 + k)) = false := by
        cases k with
        | zero =>
          rw [Nat.add_zero] at hfree
          rw [hocc] at hfree
          cases hfree
        | succ k =>
          exact ⟨k, by omega, by rwa [show counter + 1 + k = counter + (k + 1) by omega]⟩
      obtain ⟨k0, heq, hf, hall⟩ := ih (counter + 1) hex
      refine ⟨k0 + 1, ?_, ?_, ?_⟩
      · rw [show counter + (k0 + 1) = counter + 1 + k0 by omega, find_free_succ,
          if_pos hocc]
        exact heq
      · rwa [show counter + (k0 + 1) = counter + 1 + k0 by omega]
      · intro j hj
        cases j with
        | zero => simpa using hocc
        | succ j =>
          rw [show counter + (j + 1) = counter + 1 + j by omega]
          exact hall j (by omega)

/-- The concrete occupied state refuting the no-gap-reuse reading of C6:
`name.ext` and `name_2.ext` occupied, `name_1.ext` free. -/
def c6dest : DestName :=
  { dir := ["out", "evergreen"], stem := "name", suffix := ".ext", counter := none }

/-- C6 counterexample: with `name.ext` and `name_2.ext` occupied, the
resolver yields `name_1.ext` — a gap below the highest discovered
suffix 2 IS reused, against the claim. -/
theorem C6_counterexample :
    _resolve_destination [c6dest, mkCandidate c6dest 2] c6dest = mkCandidate c6dest 1
    ∧ ([c6dest, mkCandidate c6dest 2]).contains (mkCandidate c6dest 2) = true
    ∧ 1 < 2 := by
  refine ⟨by decide, by decide, by decide⟩

/-- C6 (amended): a free destination is used unchanged; an occupied one
resolves to `stem_c.suffix` for the SMALLEST counter `c ≥ 1` whose
candidate is free — hence a second move to an occupied `name.ext` yields
`name_1.ext` and a third `name_2.ext`, but a free gap below the highest
existing suffix is reused rather than skipped. -/
theorem C6_collision_safe_move (occupied : List DestName) (dest : DestName) :
    (occupied.contains dest = false → _resolve_destination occupied dest = dest)
    ∧ (occupied.contains dest = true →
        ∃ c, 1 ≤ c ∧ _resolve_destination occupied dest = mkCandidate dest c
          ∧ occupied.contains (mkCandidate dest c) = false
          ∧ ∀ k, 1 ≤ k → k < c → occupied.contains (mkCandidate dest k) = true) := by
  constructor
  · intro h
    unfold _resolve_destination
    rw [if_neg (not_containsb_true h)]
  · intro h
    obtain ⟨k, hk, hfree⟩ := find_free_within_fuel occupied dest 1
    obtain ⟨k0, heq, hf, hall⟩ :=
      find_free_spec occupied dest (occupied.length + 1) 1 ⟨k, hk, hfree⟩
    refine ⟨1 + k0, by omega, ?_, hf, ?_⟩
    · unfold _resolve_destination
      rw [if_pos h]
      exact heq
    · intro j h1 hj
      have := hall (j - 1) (by omega)
      rwa [show 1 + (j - 1) = j by omega] at this

theorem C6_collision_safe_move_witness :
    (_resolve_destination [] c6dest = c6dest)
    ∧ (∃ c, 1 ≤ c
        ∧ _resolve_destination [c6dest, mkCandidate c6dest 1] c6dest = mkCandidate c6dest c
        ∧ ([c6dest, mkCandidate c6dest 1]).contains (mkCandidate c6dest c) = false
        ∧ ∀ k, 1 ≤ k → k < c →
            ([c6dest, mkCandidate c6dest 1]).contains (mkCandidate c6dest k) = true) :=
  ⟨(C6_collision_safe_move [] c6dest).1 (by decide),
   (C6_collision_safe_move [c6dest, mkCandidate c6dest 1] c6dest).2 (by decide)⟩

/-! ## C1: the dedup gate -/

theorem find?_eq_filter_head? (db : List TriageRecord) (path : String) :
    db.find? (fun r => r.source_path == path)
      = (db.filter (fun r => r.source_path == path)).head? := by
  induction db with
  | nil => rfl
  | cons r rest ih =>
    rw [List.find?_cons, List.filter_cons]
    cases hp : (r.source_path == path) with
    | true => rfl
    | false => exact ih

/-- The two records persisted for the same path on the C1 counterexample
run: content was "contentA" at the first run, "contentB" at the second. -/
def c1recA : TriageRecord :=
  { source_path := "/src/doc.txt"
    destination_path := none
    checksum := "contentA"
    file_size := 8
    file_extension := ".txt"
    triage := "evergreen"
    confidence := 9/10
    reason := ""
    topics := []
    llm_provider := "openai"
    llm_model := "gpt-4o"
    extracted_text_length := 8
    truncated := false
    error_message := none }

def c1recB : TriageRecord := { c1recA with checksum := "contentB" }

/-- The current filesystem on the third run: the file's content has been
edited back to "contentA" — different from the LAST-written record's
checksum ("contentB"). -/
def c1fs : String → Option Content :=
  fun p => if p = "/src/doc.txt" then some "contentA" else none

/-- C1 counterexample: with two records for the path (checksums
"contentA" then "contentB") and current content "contentA", the dedup
gate returns true (run skipped) although the content differs from the
most recent record's checksum — the lookup consults the FIRST-inserted
record, not the most recent one. -/
theorem C1_counterexample :
    is_processed [c1recA, c1recB] c1fs "/src/doc.txt" = .ok true
    ∧ (get_latest_by_source_path [c1recA, c1recB] "/src/doc.txt").map
        TriageRecord.checksum = some "contentB"
    ∧ compute_checksum c1fs "/src/doc.txt" = .ok "contentA"
    ∧ "contentA" ≠ "contentB" := by
  refine ⟨rfl, rfl, rfl, by decide⟩

/-- C1 (amended): the dedup gate consults the FIRST-persisted (oldest)
matching record for the exact path: with no record it reports false, and
with at least one it recomputes the current fingerprint and reports true
iff it equals the checksum of the first record in insertion order.  A
second run over unchanged content (one prior record) is therefore
skipped, and content differing from that oldest record's checksum is
reprocessed — but content that reverts to the original after
intermediate changes is skipped even though it changed since the
last-written record. -/
theorem C1_dedup_first_record (db : List TriageRecord)
    (fs : String → Option Content) (path : String) (content : Content)
    (h : fs path = some content) :
    get_by_source_path db path
      = (db.filter (fun r => r.source_path == path)).head?
    ∧ (get_by_source_path db path = none → is_processed db fs path = .ok false)
    ∧ (∀ r, get_by_source_path db path = some r →
        (is_processed db fs path = .ok true ↔ r.checksum = sha256_hexdigest content)) := by
  refine ⟨find?_eq_filter_head? db path, ?_, ?_⟩
  · intro hg
    simp [is_processed, hg]
  · intro r hg
    simp only [is_processed, hg, compute_checksum, h]
    constructor
    · intro he
      have : (r.checksum == sha256_hexdigest content) = true := by
        cases hb : (r.checksum == sha256_hexdigest content) with
        | true => rfl
        | false => rw [hb] at he; cases he
      exact eq_of_beq this
    · intro he
      rw [he]
      simp

theorem C1_dedup_first_record_witness :
    (get_by_source_path [c1recA] "/src/doc.txt"
      = (([c1recA]).filter (fun r => r.source_path == "/src/doc.txt")).head?)
    ∧ (get_by_source_path [c1recA] "/src/doc.txt" = none →
        is_processed [c1recA] c1fs "/src/doc.txt" = .ok false)
    ∧ (∀ r, get_by_source_path [c1recA] "/src/doc.txt" = some r →
        (is_processed [c1recA] c1fs "/src/doc.txt" = .ok true
          ↔ r.checksum = sha256_hexdigest "contentA")) :=
  C1_dedup_first_record [c1recA] c1fs "/src/doc.txt" "contentA" rfl

/-! ## Pipeline helper lemmas -/

theorem move_file_db {w : World} {sd od : String} {f : SrcFile} {t : String}
    {wm : World} {d : DestName}
    (h : move_file w sd od f t = .ok (wm, d)) : wm.db = w.db := by
  unfold move_file at h
  cases hfs : w.fs (fullPath sd f) with
  | none =>
    simp only [hfs] at h
    exact Except.noConfusion h
  | some c =>
    simp only [hfs] at h
    injection h with hp
    injection hp with h1 h2
    rw [← h1]

theorem move_file_err_isOSError {w : World} {sd od : String} {f : SrcFile}
    {t : String} {e : PyError}
    (h : move_file w sd od f t = .error e) : e.isOSError = true := by
  unfold move_file at h
  cases hfs : w.fs (fullPath sd f) with
  | none =>
    simp only [hfs] at h
    injection h with hp
    rw [← hp]
    rfl
  | some c =>
    simp only [hfs] at h
    exact Except.noConfusion h

/-- The record written by the `_finish` tail, as a function of the
thresholded classification and the destination. -/
def finishRecord (cfg : Config) (f : SrcFile) (checksum : String)
    (file_size : Nat) (cls : TriageResult) (extracted_text_length : Nat)
    (truncated : Bool) (dest : Option String) : TriageRecord :=
  { source_path := fullPath cfg.input_directory f
    destination_path := dest
    checksum := checksum
    file_size := file_size
    file_extension := pySuffix f.name
    triage := cls.triage
    confidence := cls.confidence
    reason := cls.reason
    topics := cls.topics
    llm_provider := cfg.llm.provider
    llm_model := cfg.llm.model
    extracted_text_length := extracted_text_length
    truncated := truncated
    error_message := cls.error }

/-- The outcome dict produced by the `_finish` tail. -/
def finishOutcome (cls : TriageResult) (dest : Option String) : FileOutcome :=
  { triage := some cls.triage
    confidence := cls.confidence
    reason := cls.reason
    topics := cls.topics
    skipped := false
    error := cls.error
    destination_path := dest }

/-- Shape of the `_finish` tail shared by all classification branches:
it always succeeds, appends exactly one record carrying the thresholded
classification, and reports the same fields in the outcome dict. -/
theorem finish_spec (w : World) (cfg : Config) (dry_run : Bool) (f : SrcFile)
    (checksum : String) (file_size : Nat) (cls0 : TriageResult)
    (extracted_text_length : Nat) (truncated : Bool) :
    ∃ dest w2,
      _finish w cfg dry_run f checksum file_size cls0 extracted_text_length truncated
        = .ok (w2, finishOutcome (apply_threshold cls0 cfg.triage.confidence_threshold) dest)
      ∧ w2.db = insert_result w.db
          (finishRecord cfg f checksum file_size
            (apply_threshold cls0 cfg.triage.confidence_threshold)
            extracted_text_length truncated dest) := by
  cases dry_run with
  | true =>
    exact ⟨none, _, rfl, rfl⟩
  | false =>
    cases hm : move_file w cfg.input_directory cfg.output_directory f
        (apply_threshold cls0 cfg.triage.confidence_threshold).triage with
    | ok p =>
      obtain ⟨wm, d⟩ := p
      have heq : _finish w cfg false f checksum file_size cls0
          extracted_text_length truncated
          = .ok ({ wm with db := (insert_result wm.db
              (finishRecord cfg f checksum file_size
                (apply_threshold cls0 cfg.triage.confidence_threshold)
                extracted_text_length truncated (some (renderDest d)))) },
            finishOutcome (apply_threshold cls0 cfg.triage.confidence_threshold)
              (some (renderDest d))) := by
        unfold _finish
        simp only [Bool.false_eq_true, if_false, hm]
        rfl
      refine ⟨some (renderDest d), _, heq, ?_⟩
      simp only [move_file_db hm]
    | error e =>
      have hos := move_file_err_isOSError hm
      have heq : _finish w cfg false f checksum file_size cls0
          extracted_text_length truncated
          = .ok ({ w with db := (insert_result w.db
              (finishRecord cfg f checksum file_size
                (apply_threshold cls0 cfg.triage.confidence_threshold)
                extracted_text_length truncated none)) },
            finishOutcome (apply_threshold cls0 cfg.triage.confidence_threshold) none) := by
        unfold _finish
        simp only [Bool.false_eq_true, if_false, hm, hos, if_true]
        rfl
      exact ⟨none, _, heq, rfl⟩

/-! ## C2: file-direct mode -/

/-- The message of the TypeError raised when `_call_llm` forwards the
kwargs dict (including file_path) to `call_claude`, whose keyword-only
parameters are (prompt, model, timeout). -/
def file_path_type_error : String :=
  "call_claude() got an unexpected keyword argument file_path"

theorem classify_file_direct_type_error (env : Env) (text filename ext : String)
    (truncated : Bool) (model : String) (timeout : Nat) (api_base : Option String)
    (p : String) :
    classify_document env text filename ext truncated model timeout api_base
        "cli" "claude" (some p)
      = (.ok { error := some file_path_type_error }, []) := by
  unfold classify_document _call_llm
  simp [PyError.toMessage, file_path_type_error]

/-- C2 (code bug): in file-direct configuration (mode "cli", provider
"claude"), process_file does skip extraction/truncation/summarization and
records extracted_text_length 0 / truncated false — but the classification
never reaches the claude CLI: `_call_llm` passes the file_path keyword to
`call_claude`, which does not accept it, so Python raises TypeError
before any subprocess starts; classify_document catches it and the record
is persisted with triage "unknown", confidence 0 and the TypeError as
error_message.  The empty event trace holds for EVERY environment: no
backend is ever invoked. -/
theorem C2_file_direct_type_error (env : Env) (w : World) (cfg : Config)
    (dry_run : Bool) (f : SrcFile) (content : Content)
    (hmode : cfg.llm.mode = "cli") (hprov : cfg.llm.provider = "claude")
    (hfs : w.fs (fullPath cfg.input_directory f) = some content)
    (hdb : get_by_source_path w.db (fullPath cfg.input_directory f) = none) :
    ∃ w2 out dest,
      process_file env w cfg dry_run f = .ok (w2, out, [])
      ∧ w2.db = insert_result w.db
          { source_path := fullPath cfg.input_directory f
            destination_path := dest
            checksum := sha256_hexdigest content
            file_size := content.length
            file_extension := pySuffix f.name
            triage := "unknown"
            confidence := 0
            reason := ""
            topics := []
            llm_provider := cfg.llm.provider
            llm_model := cfg.llm.model
            extracted_text_length := 0
            truncated := false
            error_message := some file_path_type_error }
      ∧ out.error = some file_path_type_error
      ∧ out.triage = some "unknown"
      ∧ out.skipped = false := by
  have hpath : compute_checksum w.fs (fullPath cfg.input_directory f)
      = .ok (sha256_hexdigest content) := by
    simp [compute_checksum, hfs]
  have hproc : is_processed w.db w.fs (fullPath cfg.input_directory f) = .ok false := by
    simp [is_processed, hdb]
  have hfd : _is_file_direct_mode cfg = true := by
    simp [_is_file_direct_mode, hmode, hprov]
  have hnotapi : ¬ (cfg.llm.mode = "api") := by rw [hmode]; decide
  have hfsize : ((w.fs (fullPath cfg.input_directory f)).getD "").length
      = content.length := by rw [hfs]; rfl
  have hcls := classify_file_direct_type_error env "" f.name (pySuffix f.name) false
    cfg.llm.model cfg.llm.rate_limit.request_timeout_sec cfg.llm.base_url
    (fullPath cfg.input_directory f)
  have hthr : apply_threshold { error := some file_path_type_error }
      cfg.triage.confidence_threshold = { error := some file_path_type_error } :=
    apply_threshold_of_error _ _ (by simp)
  obtain ⟨dest, w2, hfin, hdb2⟩ := finish_spec w cfg dry_run f
    (sha256_hexdigest content) content.length { error := some file_path_type_error }
    0 false
  refine ⟨w2,
    finishOutcome (apply_threshold { error := some file_path_type_error }
      cfg.triage.confidence_threshold) dest, dest, ?_, ?_, ?_, ?_, ?_⟩
  · unfold process_file
    simp only [hpath, hproc, hfd, if_true]
    simp only [if_neg hnotapi]
    simp only [hmode, hprov, hfsize]
    simp only [hcls, hfin]
  · rw [hdb2, hthr]
    rfl
  · rw [hthr]
    rfl
  · rw [hthr]
    rfl
  · rw [hthr]
    rfl

/-- Concrete file-direct configuration for the C2 witness. -/
def c2cfg : Config :=
  { input_directory := "/src"
    output_directory := "/out"
    llm := { mode := "cli", provider := "claude", model := "claude-sonnet" } }

def c2file : SrcFile := { rel := ["slides.pdf"] }

def c2world : World :=
  { fs := fun p => if p = "/src/slides.pdf" then some "pdfbytes" else none
    dest := []
    db := [] }

/-- A dummy environment; C2 holds for every environment. -/
def dummyEnv : Env :=
  { run := fun _ _ _ => .notFound
    api := fun _ _ _ _ => .error "unreachable"
    loads := fun _ => .error "unreachable"
    convert := fun _ => .error "unreachable" }

theorem C2_file_direct_type_error_witness :
    ∃ w2 out dest,
      process_file dummyEnv c2world c2cfg true c2file = .ok (w2, out, [])
      ∧ w2.db = insert_result c2world.db
          { source_path := fullPath c2cfg.input_directory c2file
            destination_path := dest
            checksum := sha256_hexdigest "pdfbytes"
            file_size := ("pdfbytes" : String).length
            file_extension := pySuffix c2file.name
            triage := "unknown"
            confidence := 0
            reason := ""
            topics := []
            llm_provider := c2cfg.llm.provider
            llm_model := c2cfg.llm.model
            extracted_text_length := 0
            truncated := false
            error_message := some file_path_type_error }
      ∧ out.error = some file_path_type_error
      ∧ out.triage = some "unknown"
      ∧ out.skipped = false :=
  C2_file_direct_type_error dummyEnv c2world c2cfg true c2file "pdfbytes"
    rfl rfl rfl rfl

/-! ## C3: insufficient extracted text -/

/-- C3 (amended): for an unprocessed file whose extracted text strips to
fewer than min_text_length characters (not in file-direct mode), the LLM
backend is never invoked (empty event trace, for every environment),
exactly one record is written with triage "unknown", confidence 0 and
error_message unset — and the file is NOT moved, dry-run or not: the
branch returns before the move step, the world's files and destination
tree are untouched, and destination_path is null in both the record and
the outcome. -/
theorem C3_insufficient_no_move (env : Env) (w : World) (cfg : Config)
    (dry_run : Bool) (f : SrcFile) (content : Content) (text : String)
    (hfs : w.fs (fullPath cfg.input_directory f) = some content)
    (hdb : get_by_source_path w.db (fullPath cfg.input_directory f) = none)
    (hfd : _is_file_direct_mode cfg = false)
    (hconv : env.convert (fullPath cfg.input_directory f) = .ok text)
    (hins : text = "" ∨ (pyStrip text).length < cfg.text_extraction.min_text_length) :
    process_file env w cfg dry_run f = .ok
      ({ w with db := (insert_result w.db
          { source_path := fullPath cfg.input_directory f
            destination_path := none
            checksum := sha256_hexdigest content
            file_size := content.length
            file_extension := pySuffix f.name
            triage := "unknown"
            confidence := 0
            reason := "テキスト抽出不足"
            topics := []
            llm_provider := cfg.llm.provider
            llm_model := cfg.llm.model
            extracted_text_length := (pyStrip text).length
            truncated := false
            error_message := none }) },
       { triage := some "unknown", confidence := 0, skipped := false
         error := none, destination_path := none },
       []) := by
  have hpath : compute_checksum w.fs (fullPath cfg.input_directory f)
      = .ok (sha256_hexdigest content) := by
    simp [compute_checksum, hfs]
  have hproc : is_processed w.db w.fs (fullPath cfg.input_directory f) = .ok false := by
    simp [is_processed, hdb]
  have hfsize : ((w.fs (fullPath cfg.input_directory f)).getD "").length
      = content.length := by rw [hfs]; rfl
  have hext : extract_text env (fullPath cfg.input_directory f)
      cfg.text_extraction.min_text_length
      = { text := some text, insufficient := true, error := none } := by
    unfold extract_text
    rw [hconv]
    exact if_pos hins
  unfold process_file
  simp only [hpath, hproc, hfd, Bool.false_eq_true, if_false, hfsize, hext]
  rfl

def c3cfg : Config := { input_directory := "/src", output_directory := "/out" }

def c3file : SrcFile := { rel := ["doc.txt"] }

def c3world : World :=
  { fs := fun p => if p = "/src/doc.txt" then some "short" else none
    dest := []
    db := [] }

def c3env : Env :=
  { run := fun _ _ _ => .notFound
    api := fun _ _ _ _ => .error "unreachable"
    loads := fun _ => .error "unreachable"
    convert := fun p => if p = "/src/doc.txt" then .ok "short" else .error "no file" }

/-- The single record written on the C3 counterexample run. -/
def c3rec : TriageRecord :=
  { source_path := "/src/doc.txt"
    destination_path := none
    checksum := "short"
    file_size := 5
    file_extension := ".txt"
    triage := "unknown"
    confidence := 0
    reason := "テキスト抽出不足"
    topics := []
    llm_provider := "openai"
    llm_model := "gpt-4o"
    extracted_text_length := 5
    truncated := false
    error_message := none }

/-- C3 counterexample: a 5-character file against min_text_length 100,
dry-run NOT set.  One record with triage "unknown" and error_message null
is written and the LLM is never called (as the claim says) — but contrary
to the claim the file is NOT moved to the unknown/ subtree: the run ends
with destination_path null, the output tree untouched and the source file
still in place. -/
theorem C3_counterexample :
    process_file c3env c3world c3cfg false c3file
      = .ok ({ c3world with db := [c3rec] },
        { triage := some "unknown", confidence := 0, skipped := false
          error := none, destination_path := none },
        [])
    ∧ ({ c3world with db := [c3rec] } : World).dest = ([] : List DestName)
    ∧ ({ c3world with db := [c3rec] } : World).fs "/src/doc.txt" = some "short"
    ∧ c3rec.destination_path = none
    ∧ c3rec.error_message = none
    ∧ c3rec.triage = "unknown" := by
  refine ⟨rfl, rfl, rfl, rfl, rfl, rfl⟩

theorem C3_insufficient_no_move_witness :
    process_file c3env c3world c3cfg true c3file = .ok
      ({ c3world with db := (insert_result c3world.db
          { source_path := fullPath c3cfg.input_directory c3file
            destination_path := none
            checksum := sha256_hexdigest "short"
            file_size := ("short" : String).length
            file_extension := pySuffix c3file.name
            triage := "unknown"
            confidence := 0
            reason := "テキスト抽出不足"
            topics := []
            llm_provider := c3cfg.llm.provider
            llm_model := c3cfg.llm.model
            extracted_text_length := (pyStrip "short").length
            truncated := false
            error_message := none }) },
       { triage := some "unknown", confidence := 0, skipped := false
         error := none, destination_path := none },
       []) :=
  C3_insufficient_no_move c3env c3world c3cfg true c3file "short" "short"
    rfl rfl rfl rfl (Or.inr (by decide))

/-! ## C4: per-file fault isolation in the batch loop -/

def c4cfg : Config := { input_directory := "/src", output_directory := "/out" }

def c4world : World :=
  { fs := fun p => if p = "/src/a.txt" then some "x" else none
    dest := []
    db := [] }

def c4env : Env := { dummyEnv with convert := fun _ => .ok "x" }

/-- C4 (code bug): the batch loop of process_files has no per-file
exception boundary.  With a two-file batch whose second file vanished
after scanning, the FileNotFoundError raised while fingerprinting it
propagates out of process_files: the run aborts with the exception and no
aggregate summary is ever produced — while the same batch without the
vanished file completes.  The spec requires the error to be caught per
file, logged, and the batch to continue. -/
theorem C4_batch_aborts_on_missing_file :
    process_files c4env c4world c4cfg true
        [{ rel := ["a.txt"] }, { rel := ["gone.txt"] }]
      = .error (.fileNotFound ("ファイルが見つかりません: /src/gone.txt"))
    ∧ (process_files c4env c4world c4cfg true [{ rel := ["a.txt"] }]).isOk = true := by
  refine ⟨rfl, rfl⟩

/-! ## C8: the error/unknown/zero-confidence pairing -/

/-- Every outcome classify_document returns (rather than raises) carries
the conventional failure pairing: a non-null error implies category
"unknown" and confidence 0. -/
theorem classify_document_ok_pairing (env : Env) (text filename ext : String)
    (truncated : Bool) (model : String) (timeout : Nat) (api_base : Option String)
    (mode provider : String) (file_path : Option String) (r : TriageResult)
    (events : List CallEvent)
    (h : classify_document env text filename ext truncated model timeout api_base
        mode provider file_path = (.ok r, events)) :
    r.error ≠ none → r.triage = "unknown" ∧ r.confidence = 0 := by
  intro herr
  unfold classify_document at h
  rcases hc : _call_llm env (build_classify_prompt filename ext text truncated file_path)
      model timeout api_base mode provider file_path with ⟨res, evs⟩
  simp only [hc] at h
  cases res with
  | error e =>
    cases e <;>
      (simp only [Prod.mk.injEq, Except.ok.injEq] at h
       obtain ⟨h1, h2⟩ := h
       rw [← h1]
       exact ⟨rfl, rfl⟩)
  | ok raw =>
    unfold _parse_response at h
    cases hl : env.loads (_extract_json raw) with
    | error msg =>
      simp only [hl, Prod.mk.injEq, Except.ok.injEq] at h
      obtain ⟨h1, h2⟩ := h
      rw [← h1]
      exact ⟨rfl, rfl⟩
    | ok data =>
      cases data with
      | obj fields =>
        cases hpf : pyFloat ((jsonGet fields "confidence").getD (.num 0)) with
        | error e =>
          simp only [hl, hpf, Prod.mk.injEq] at h
          exact absurd h.1 (by simp)
        | ok conf =>
          simp only [hl, hpf, Prod.mk.injEq, Except.ok.injEq] at h
          obtain ⟨h1, h2⟩ := h
          rw [← h1] at herr
          exact absurd rfl herr
      | null =>
        simp only [hl, Prod.mk.injEq] at h
        exact absurd h.1 (by simp)
      | jbool b =>
        simp only [hl, Prod.mk.injEq] at h
        exact absurd h.1 (by simp)
      | num q =>
        simp only [hl, Prod.mk.injEq] at h
        exact absurd h.1 (by simp)
      | str sv =>
        simp only [hl, Prod.mk.injEq] at h
        exact absurd h.1 (by simp)
      | arr xs =>
        simp only [hl, Prod.mk.injEq] at h
        exact absurd h.1 (by simp)

/-- The record written by `_finish` inherits the failure pairing from the
classification outcome: threshold gating never touches an errored result. -/
theorem finishRecord_pairing (cfg : Config) (f : SrcFile) (checksum : String)
    (file_size : Nat) (cls0 : TriageResult) (etl : Nat) (tr : Bool)
    (dest : Option String)
    (hp : cls0.error ≠ none → cls0.triage = "unknown" ∧ cls0.confidence = 0) :
    (finishRecord cfg f checksum file_size
        (apply_threshold cls0 cfg.triage.confidence_threshold) etl tr dest).error_message
        ≠ none →
      (finishRecord cfg f checksum file_size
        (apply_threshold cls0 cfg.triage.confidence_threshold) etl tr dest).triage
        = "unknown"
      ∧ (finishRecord cfg f checksum file_size
          (apply_threshold cls0 cfg.triage.confidence_threshold) etl tr dest).confidence
        = 0 := by
  intro he
  have hem : (finishRecord cfg f checksum file_size
      (apply_threshold cls0 cfg.triage.confidence_threshold) etl tr dest).error_message
      = cls0.error := apply_threshold_error cls0 cfg.triage.confidence_threshold
  rw [hem] at he
  have hu := hp he
  have ha := apply_threshold_of_error cls0 cfg.triage.confidence_threshold he
  constructor
  · show (apply_threshold cls0 cfg.triage.confidence_threshold).triage = "unknown"
    rw [ha]
    exact hu.1
  · show (apply_threshold cls0 cfg.triage.confidence_threshold).confidence = 0
    rw [ha]
    exact hu.2

/-- C8: for every successful process_file run, every record it appends
satisfies the conventional pairing: error_message non-null implies
triage "unknown" and confidence 0 — across the unsupported-provider,
backend-not-found, timeout, non-zero-exit, transport, JSON-parse and
extraction failure paths, surviving the threshold gate into the store. -/
theorem C8_error_pairing (env : Env) (w : World) (cfg : Config) (dry_run : Bool)
    (f : SrcFile) (w2 : World) (out : FileOutcome) (events : List CallEvent)
    (h : process_file env w cfg dry_run f = .ok (w2, out, events)) :
    ∃ recs, w2.db = w.db ++ recs
      ∧ ∀ rec ∈ recs, rec.error_message ≠ none →
          rec.triage = "unknown" ∧ rec.confidence = 0 := by
  unfold process_file at h
  cases hcs : compute_checksum w.fs (fullPath cfg.input_directory f) with
  | error e =>
    simp only [hcs] at h
    exact Except.noConfusion h
  | ok checksum =>
  simp only [hcs] at h
  cases hip : is_processed w.db w.fs (fullPath cfg.input_directory f) with
  | error e =>
    simp only [hip] at h
    exact Except.noConfusion h
  | ok b =>
  simp only [hip] at h
  cases b with
  | true =>
    simp only [Except.ok.injEq] at h
    injection h with h1 hrest
    exact ⟨[], by rw [← h1, List.append_nil], by intro rec hrec; cases hrec⟩
  | false =>
  cases hfd : _is_file_direct_mode cfg with
  | true =>
    simp only [hfd, if_true] at h
    rcases hcd : classify_document env "" f.name (pySuffix f.name) false
        (if cfg.llm.mode = "api" then cfg.llm.provider ++ "/" ++ cfg.llm.model
         else cfg.llm.model)
        cfg.llm.rate_limit.request_timeout_sec cfg.llm.base_url cfg.llm.mode
        cfg.llm.provider (some (fullPath cfg.input_directory f)) with ⟨cres, cevs⟩
    rw [hcd] at h
    cases cres with
    | error e => exact Except.noConfusion h
    | ok cls0 =>
      obtain ⟨dest, wf, hfin, hdbf⟩ := finish_spec w cfg dry_run f checksum
        (((w.fs (fullPath cfg.input_directory f)).getD "").length) cls0 0 false
      simp only [hfin, Except.ok.injEq] at h
      injection h with h1 hrest
      refine ⟨[finishRecord cfg f checksum
        (((w.fs (fullPath cfg.input_directory f)).getD "").length)
        (apply_threshold cls0 cfg.triage.confidence_threshold) 0 false dest], ?_, ?_⟩
      · rw [← h1, hdbf]
        rfl
      · intro rec hrec
        rw [List.mem_singleton] at hrec
        rw [hrec]
        exact finishRecord_pairing cfg f checksum _ cls0 0 false dest
          (classify_document_ok_pairing env "" f.name (pySuffix f.name) false _
            cfg.llm.rate_limit.request_timeout_sec cfg.llm.base_url cfg.llm.mode
            cfg.llm.provider (some (fullPath cfg.input_directory f)) cls0 _ hcd)
  | false =>
  simp only [hfd, Bool.false_eq_true, if_false] at h
  cases hex : (extract_text env (fullPath cfg.input_directory f)
      cfg.text_extraction.min_text_length).error with
  | some err =>
    simp only [hex, Except.ok.injEq] at h
    injection h with h1 hrest
    refine ⟨[_], by rw [← h1]; rfl, ?_⟩
    intro rec hrec
    rw [List.mem_singleton] at hrec
    rw [hrec]
    intro _
    exact ⟨rfl, rfl⟩
  | none =>
  simp only [hex] at h
  cases hins : (extract_text env (fullPath cfg.input_directory f)
      cfg.text_extraction.min_text_length).insufficient with
  | true =>
    simp only [hins, if_true, Except.ok.injEq] at h
    injection h with h1 hrest
    refine ⟨[_], by rw [← h1]; rfl, ?_⟩
    intro rec hrec
    rw [List.mem_singleton] at hrec
    rw [hrec]
    intro hcon
    exact absurd rfl hcon
  | false =>
  simp only [hins, Bool.false_eq_true, if_false] at h
  rcases hcd : classify_document env
      (_summary_step env cfg f
        (String.mk (truncate_text ((extract_text env (fullPath cfg.input_directory f)
          cfg.text_extraction.min_text_length).text.getD "").data
          (cfg.triage.max_input_tokens : Int)).text)
        (if cfg.llm.mode = "api" then cfg.llm.provider ++ "/" ++ cfg.llm.model
         else cfg.llm.model)
        cfg.llm.rate_limit.request_timeout_sec cfg.llm.base_url).1
      f.name (pySuffix f.name)
      (truncate_text ((extract_text env (fullPath cfg.input_directory f)
        cfg.text_extraction.min_text_length).text.getD "").data
        (cfg.triage.max_input_tokens : Int)).truncated
      (if cfg.llm.mode = "api" then cfg.llm.provider ++ "/" ++ cfg.llm.model
       else cfg.llm.model)
      cfg.llm.rate_limit.request_timeout_sec cfg.llm.base_url cfg.llm.mode
      cfg.llm.provider none with ⟨cres, cevs⟩
  rw [hcd] at h
  cases cres with
  | error e => exact Except.noConfusion h
  | ok cls0 =>
    obtain ⟨dest, wf, hfin, hdbf⟩ := finish_spec w cfg dry_run f checksum
      (((w.fs (fullPath cfg.input_directory f)).getD "").length) cls0
      ((extract_text env (fullPath cfg.input_directory f)
        cfg.text_extraction.min_text_length).text.getD "").length
      (truncate_text ((extract_text env (fullPath cfg.input_directory f)
        cfg.text_extraction.min_text_length).text.getD "").data
        (cfg.triage.max_input_tokens : Int)).truncated
    simp only [hfin, Except.ok.injEq] at h
    injection h with h1 hrest
    refine ⟨[_], by rw [← h1, hdbf]; rfl, ?_⟩
    intro rec hrec
    rw [List.mem_singleton] at hrec
    rw [hrec]
    exact finishRecord_pairing cfg f checksum _ cls0 _ _ dest
      (classify_document_ok_pairing env _ f.name (pySuffix f.name) _ _
        cfg.llm.rate_limit.request_timeout_sec cfg.llm.base_url cfg.llm.mode
        cfg.llm.provider none cls0 _ hcd)

def c8env : Env := { dummyEnv with convert := fun _ => .error "boom" }

/-- The record written on the C8 witness run (extraction failure). -/
def c8rec : TriageRecord :=
  { source_path := "/src/doc.txt"
    destination_path := none
    checksum := "short"
    file_size := 5
    file_extension := ".txt"
    triage := "unknown"
    confidence := 0
    reason := "テキスト抽出失敗"
    topics := []
    llm_provider := "openai"
    llm_model := "gpt-4o"
    extracted_text_length := 0
    truncated := false
    error_message := some "boom" }

theorem C8_error_pairing_witness :
    ∃ recs, ({ c3world with db := [c8rec] } : World).db = c3world.db ++ recs
      ∧ ∀ rec ∈ recs, rec.error_message ≠ none →
          rec.triage = "unknown" ∧ rec.confidence = 0 :=
  C8_error_pairing c8env c3world c3cfg true c3file { c3world with db := [c8rec] }
    { triage := some "unknown", confidence := 0, skipped := false
      error := some "boom", destination_path := none }
    [] rfl

/-! ## C9: triage enum validity -/

/-- The JSON object the backend returns on the C9 counterexample run:
a syntactically valid payload whose classification is outside the enum. -/
def c9fields : List (String × Json) :=
  [("classification", Json.str "banana"), ("confidence", Json.num (mkRat 9 10))]

def c9cfg : Config :=
  { input_directory := "/src"
    output_directory := "/out"
    text_extraction := { min_text_length := 5 } }

def c9env : Env :=
  { run := fun _ _ _ => .notFound
    api := fun _ _ _ _ => .ok "raw"
    loads := fun _ => .ok (.obj c9fields)
    convert := fun _ => .ok "hello world." }

/-- The record persisted on the C9 counterexample run. -/
def c9rec : TriageRecord :=
  { source_path := "/src/doc.txt"
    destination_path := none
    checksum := "short"
    file_size := 5
    file_extension := ".txt"
    triage := "banana"
    confidence := mkRat 9 10
    reason := ""
    topics := []
    llm_provider := "openai"
    llm_model := "gpt-4o"
    extracted_text_length := 12
    truncated := false
    error_message := none }

/-- C9 counterexample: a well-formed JSON payload with classification
"banana" and confidence 0.9 flows through the parser and the threshold
gate unvalidated, and the persisted record's triage field is "banana" —
a value outside the evergreen/temporal/unknown enum reaches the record. -/
theorem C9_counterexample :
    process_file c9env c3world c9cfg true c3file
      = .ok ({ c3world with db := [c9rec] },
        { triage := some "banana", confidence := mkRat 9 10, reason := "", topics := []
          skipped := false, error := none, destination_path := none },
        [CallEvent.api (render_classify "doc.txt" ".txt" false "hello world.")])
    ∧ c9rec.triage = "banana"
    ∧ ("banana" ≠ "evergreen" ∧ "banana" ≠ "temporal" ∧ "banana" ≠ "unknown")
    ∧ c9rec.error_message = none := by
  refine ⟨rfl, rfl, by decide, rfl⟩

/-- C9 (amended): the response parser performs no enum validation:
whatever string the payload's classification field carries becomes the
result's triage verbatim (with error unset), and "unknown" is only the
default for an absent field — so any string the backend returns can reach
the persisted record. -/
theorem C9_parser_no_enum_validation (loads : String → Except String Json)
    (raw : String) (fields : List (String × Json)) (conf : Rat)
    (hl : loads (_extract_json raw) = .ok (.obj fields))
    (hconf : pyFloat ((jsonGet fields "confidence").getD (.num 0)) = .ok conf) :
    (∀ s, jsonGet fields "classification" = some (.str s) →
      _parse_response loads raw
        = .ok { triage := s, confidence := conf, reason := reasonField fields
                topics := topicsField fields })
    ∧ (jsonGet fields "classification" = none →
      _parse_response loads raw
        = .ok { triage := "unknown", confidence := conf, reason := reasonField fields
                topics := topicsField fields }) := by
  constructor
  · intro s hs
    unfold _parse_response
    simp only [hl, hconf, classificationField, hs]
  · intro hnone
    unfold _parse_response
    simp only [hl, hconf, classificationField, hnone]

theorem C9_parser_no_enum_validation_witness :
    _parse_response (fun _ => .ok (.obj c9fields)) "raw"
      = .ok { triage := "banana", confidence := mkRat 9 10, reason := reasonField c9fields
              topics := topicsField c9fields } :=
  (C9_parser_no_enum_validation (fun _ => .ok (.obj c9fields)) "raw" c9fields (mkRat 9 10)
    rfl rfl).1 "banana" rfl

end DocTriager
